import Mathlib

/-!
# guacamole-server: SFTP upload handlers and RDP settings

A shallow embedding of `src/protocols/ssh/sftp.c` (the filename validator and the
three upload stream handlers) together with the declarations of
`src/protocols/rdp/rdp_settings.h` and `src/protocols/rdp/rdp_stream.h`.

Conventions.

* A C string (`char*`) is the list of characters found at the pointer; the string
  ends at the first NUL character or, if the list holds none, at the end of the
  list (the terminator is then implicit).
* Calls into libssh, libguac and the socket are recorded, in program order, in an
  effect trace.  The results of the libssh calls come from a `Backend`, an
  arbitrary total transition system over a world type `σ`; theorems quantify over
  every backend, so every outcome of every call is covered.
* Pointers (`sftp_file`, the socket, the sessions) are numbers; `none` is `NULL`.
-/

namespace Guac

/-! ## C strings -/

/-- The characters of a C string: everything before the first NUL. -/
def cstr (s : List Char) : List Char :=
  s.takeWhile (fun c => c != '\x00')

/-- The libc `strcmp`: zero when both strings agree up to their terminator,
otherwise the difference of the first pair of characters that differ. -/
def strcmp : List Char → List Char → Int
  | [], [] => 0
  | [], b :: _ => 0 - (b.toNat : Int)
  | a :: _, [] => (a.toNat : Int)
  | a :: s, b :: t =>
    if a != b then (a.toNat : Int) - (b.toNat : Int)
    else if a == '\x00' then 0
    else strcmp s t

/-! ## The filename validator (sftp.c, lines 54-80) -/

/-- The `for (;;)` loop of `__ssh_guac_valid_filename`: read the next character,
stop with `true` at the terminator, return `false` on a path separator. -/
def valid_filename_loop : List Char → Bool
  | [] => true
  | c :: rest =>
    if c == '\x00' then true
    else if c == '\\' || c == '/' then false
    else valid_filename_loop rest

/-- The function `__ssh_guac_valid_filename` of sftp.c. -/
def __ssh_guac_valid_filename (filename : List Char) : Bool :=
  if strcmp filename ['.'] == 0 then false
  else if strcmp filename ['.', '.'] == 0 then false
  else valid_filename_loop filename

/-! ## Declarations from headers outside src/ -/

/-- Modelled from the spec: the status codes of an acknowledgement, §6
(`status ∈ {SUCCESS, INVALID_PARAMETER, INTERNAL_ERROR, …}`).  The enum
`guac_protocol_status` is declared in guacamole/protocol.h, which is not under
src/; only the three codes sftp.c uses are listed. -/
inductive guac_protocol_status where
  | GUAC_PROTOCOL_STATUS_SUCCESS
  | GUAC_PROTOCOL_STATUS_INVALID_PARAMETER
  | GUAC_PROTOCOL_STATUS_INTERNAL_ERROR
  deriving DecidableEq, Repr

/-- Modelled from the spec: the per-connection data of the SSH client, declared in
client.h (not under src/); the two fields are the ones sftp.c reads, both
opaque library handles. -/
structure ssh_guac_client_data where
  session : Nat
  sftp_session : Nat
  deriving DecidableEq, Repr

/-- Modelled from the spec: the client object, declared in guacamole/client.h
(not under src/); the two fields are the ones sftp.c reads. -/
structure guac_client where
  socket : Nat
  data : ssh_guac_client_data
  deriving DecidableEq, Repr

/-- Modelled from the spec: the stream object, declared in guacamole/stream.h
(not under src/): the stream index that identifies it on the wire and the
`data` pointer, which sftp.c uses to hold the `sftp_file` (`none` is `NULL`). -/
structure guac_stream where
  index : Nat
  data : Option Nat
  deriving DecidableEq, Repr

/-- The libssh success code `SSH_OK`. -/
def SSH_OK : Int := 0

/-- The open flag `O_WRONLY` of fcntl.h (the Linux value, as for the five
constants below). -/
def O_WRONLY : Nat := 0o1

/-- The open flag `O_CREAT` of fcntl.h. -/
def O_CREAT : Nat := 0o100

/-- The open flag `O_EXCL` of fcntl.h (not used by sftp.c). -/
def O_EXCL : Nat := 0o200

/-- The open flag `O_TRUNC` of fcntl.h. -/
def O_TRUNC : Nat := 0o1000

/-- The permission bit `S_IRUSR` of sys/stat.h. -/
def S_IRUSR : Nat := 0o400

/-- The permission bit `S_IWUSR` of sys/stat.h. -/
def S_IWUSR : Nat := 0o200

/-! ## Effects and the backend -/

/-- One observable call made by a handler, with its arguments. -/
inductive Effect where
  | guac_protocol_send_ack (socket : Nat) (stream : Nat) (message : String)
      (status : guac_protocol_status)
  | guac_socket_flush (socket : Nat)
  | guac_client_log_error (message : String)
  | sftp_open (sftp_session : Nat) (filename : List Char) (accesstype : Nat) (mode : Nat)
  | sftp_write (file : Option Nat) (data : List Nat) (count : Int)
  | sftp_close (file : Option Nat)
  deriving DecidableEq, Repr

namespace Effect

/-- Whether the effect is an acknowledgement. -/
def is_ack : Effect → Bool
  | guac_protocol_send_ack _ _ _ _ => true
  | _ => false

/-- Whether the effect is a backend open call. -/
def is_sftp_open : Effect → Bool
  | sftp_open _ _ _ _ => true
  | _ => false

/-- Whether the effect is a backend write call. -/
def is_sftp_write : Effect → Bool
  | sftp_write _ _ _ => true
  | _ => false

/-- Whether the effect is a backend close call. -/
def is_sftp_close : Effect → Bool
  | sftp_close _ => true
  | _ => false

end Effect

/-- The libssh calls of sftp.c as a total transition system over a world `σ`.
`sftp_open` yields the new handle (`none` for `NULL`), `sftp_write` the number of
bytes written or a negative value, `sftp_close` a status code, and
`ssh_get_error` the diagnostic text of the last error of a session. -/
structure Backend (σ : Type) where
  sftp_open : σ → Nat → List Char → Nat → Nat → Option Nat × σ
  sftp_write : σ → Option Nat → List Nat → Int → Int × σ
  sftp_close : σ → Option Nat → Int × σ
  ssh_get_error : σ → Nat → String

/-- What a handler leaves behind: its return value, the stream object, the world
of the backend and the effects it performed, in program order. -/
structure Outcome (σ : Type) where
  ret : Int
  stream : guac_stream
  world : σ
  trace : List Effect

/-! ## The upload handlers (sftp.c, lines 82-168) -/

/-- The function `guac_sftp_file_handler` of sftp.c. -/
def guac_sftp_file_handler {σ : Type} (be : Backend σ) (w : σ) (client : guac_client)
    (stream : guac_stream) (_mimetype : List Char) (filename : List Char) : Outcome σ :=
  let client_data := client.data
  if !__ssh_guac_valid_filename filename then
    ⟨0, stream, w,
      [Effect.guac_protocol_send_ack client.socket stream.index "SFTP: Illegal filename"
          guac_protocol_status.GUAC_PROTOCOL_STATUS_INVALID_PARAMETER,
        Effect.guac_socket_flush client.socket]⟩
  else
    let opened := be.sftp_open w client_data.sftp_session filename
      (O_WRONLY ||| O_CREAT ||| O_TRUNC) (S_IRUSR ||| S_IWUSR)
    let file := opened.1
    let call := Effect.sftp_open client_data.sftp_session filename
      (O_WRONLY ||| O_CREAT ||| O_TRUNC) (S_IRUSR ||| S_IWUSR)
    if file != none then
      ⟨0, ⟨stream.index, file⟩, opened.2,
        [call,
          Effect.guac_protocol_send_ack client.socket stream.index "SFTP: File opened"
            guac_protocol_status.GUAC_PROTOCOL_STATUS_SUCCESS,
          Effect.guac_socket_flush client.socket]⟩
    else
      ⟨0, ⟨stream.index, file⟩, opened.2,
        [call,
          Effect.guac_client_log_error
            ("Unable to open file: " ++ be.ssh_get_error opened.2 client_data.session),
          Effect.guac_protocol_send_ack client.socket stream.index "SFTP: Open failed"
            guac_protocol_status.GUAC_PROTOCOL_STATUS_INTERNAL_ERROR,
          Effect.guac_socket_flush client.socket]⟩

/-- The function `guac_sftp_blob_handler` of sftp.c.  `data` is the buffer and
`length` the `int` passed with it, which is also the count handed to `sftp_write`
(the conversion to `size_t` changes no length a blob can have); the result of
`sftp_write` is compared with `length` as a signed integer. -/
def guac_sftp_blob_handler {σ : Type} (be : Backend σ) (w : σ) (client : guac_client)
    (stream : guac_stream) (data : List Nat) (length : Int) : Outcome σ :=
  let client_data := client.data
  let file := stream.data
  let written := be.sftp_write w file data length
  let call := Effect.sftp_write file data length
  if written.1 == length then
    ⟨0, stream, written.2,
      [call,
        Effect.guac_protocol_send_ack client.socket stream.index "SFTP: OK"
          guac_protocol_status.GUAC_PROTOCOL_STATUS_SUCCESS,
        Effect.guac_socket_flush client.socket]⟩
  else
    ⟨0, stream, written.2,
      [call,
        Effect.guac_client_log_error
          ("Unable to write to file: " ++ be.ssh_get_error written.2 client_data.session),
        Effect.guac_protocol_send_ack client.socket stream.index "SFTP: Write failed"
          guac_protocol_status.GUAC_PROTOCOL_STATUS_INTERNAL_ERROR,
        Effect.guac_socket_flush client.socket]⟩

/-- The function `guac_sftp_end_handler` of sftp.c. -/
def guac_sftp_end_handler {σ : Type} (be : Backend σ) (w : σ) (client : guac_client)
    (stream : guac_stream) : Outcome σ :=
  let file := stream.data
  let closed := be.sftp_close w file
  let call := Effect.sftp_close file
  if closed.1 == SSH_OK then
    ⟨0, stream, closed.2,
      [call,
        Effect.guac_protocol_send_ack client.socket stream.index "SFTP: OK"
          guac_protocol_status.GUAC_PROTOCOL_STATUS_SUCCESS,
        Effect.guac_socket_flush client.socket]⟩
  else
    ⟨0, stream, closed.2,
      [call,
        Effect.guac_client_log_error "Unable to close file",
        Effect.guac_protocol_send_ack client.socket stream.index "SFTP: Close failed"
          guac_protocol_status.GUAC_PROTOCOL_STATUS_INTERNAL_ERROR,
        Effect.guac_socket_flush client.socket]⟩

/-! ## Uploading a sequence of chunks -/

/-- The blob events of one upload: `guac_sftp_blob_handler` is called once per
chunk, in receipt order, each call on the world and the stream left by the call
before it; the `length` passed with a chunk is the number of its bytes.  The
trace is the concatenation of the traces of the calls. -/
def upload_chunks {σ : Type} (be : Backend σ) (client : guac_client) :
    σ → guac_stream → List (List Nat) → Outcome σ
  | w, stream, [] => ⟨0, stream, w, []⟩
  | w, stream, c :: cs =>
    let o := guac_sftp_blob_handler be w client stream c c.length
    let r := upload_chunks be client o.world o.stream cs
    ⟨r.ret, r.stream, r.world, o.trace ++ r.trace⟩

/-- The bytes of a file after `data` has been stored at position `offset`; a
position past the end of the file leaves a gap of zero bytes before the data. -/
def write_at (content : List Nat) (offset : Nat) (data : List Nat) : List Nat :=
  content.take offset ++ List.replicate (offset - content.length) 0 ++ data ++
    content.drop (offset + data.length)

/-- The world of `mem_backend`: the bytes and the write position of the one
remote file. -/
structure remote_file where
  content : List Nat
  offset : Nat
  deriving DecidableEq, Repr

/-- A backend whose calls all succeed: `sftp_open` truncates the remote file and
yields handle 1, `sftp_write` stores the first `count` bytes at the write
position, `sftp_close` yields `SSH_OK`. -/
def mem_backend : Backend remote_file where
  sftp_open := fun _ _ _ _ _ => (some 1, ⟨[], 0⟩)
  sftp_write := fun f _ data count =>
    (count, ⟨write_at f.content f.offset (data.take count.toNat), f.offset + count.toNat⟩)
  sftp_close := fun f _ => (SSH_OK, f)
  ssh_get_error := fun _ _ => ""

/-- A backend whose calls all fail: `sftp_open` yields `NULL`, `sftp_write` and
`sftp_close` yield -1. -/
def failing_backend : Backend Unit where
  sftp_open := fun w _ _ _ _ => (none, w)
  sftp_write := fun w _ _ _ => (-1, w)
  sftp_close := fun w _ => (-1, w)
  ssh_get_error := fun _ _ => "Permission denied"

/-- A client to run the handlers on. -/
def demo_client : guac_client := ⟨7, ⟨11, 13⟩⟩

/-- A stream that holds no file yet. -/
def demo_stream : guac_stream := ⟨3, none⟩

/-- A stream that holds the file handle 1. -/
def open_stream : guac_stream := ⟨3, some 1⟩

/-- The macro `RDP_DEFAULT_PORT`. -/
def RDP_DEFAULT_PORT : Int := 3389

/-- The macro `RDP_DEFAULT_WIDTH`. -/
def RDP_DEFAULT_WIDTH : Int := 1024

/-- The macro `RDP_DEFAULT_HEIGHT`. -/
def RDP_DEFAULT_HEIGHT : Int := 768

/-- The macro `RDP_DEFAULT_DEPTH`. -/
def RDP_DEFAULT_DEPTH : Int := 16

/-- The enum `guac_rdp_security` of rdp_settings.h. -/
inductive guac_rdp_security where
  | GUAC_SECURITY_RDP
  | GUAC_SECURITY_TLS
  | GUAC_SECURITY_NLA
  | GUAC_SECURITY_ANY
  deriving DecidableEq, Repr

/-- The struct `guac_rdp_settings` of rdp_settings.h; a `char*` is an optional
string, `server_layout` a pointer, `svc_names` an optional list of names. -/
structure guac_rdp_settings where
  hostname : Option String
  port : Int
  domain : Option String
  username : Option String
  password : Option String
  color_depth : Int
  width : Int
  height : Int
  resolution : Int
  audio_enabled : Int
  printing_enabled : Int
  drive_enabled : Int
  drive_path : Option String
  console : Int
  console_audio : Int
  server_layout : Option Nat
  initial_program : Option String
  security_mode : guac_rdp_security
  ignore_certificate : Int
  disable_authentication : Int
  remote_app : Option String
  remote_app_dir : Option String
  remote_app_args : Option String
  svc_names : Option (List String)
  deriving DecidableEq, Repr

/-- Modelled from the spec: the positions, in the argument vector, of the options
that §8 gives a default for.  The schema `GUAC_RDP_CLIENT_ARGS` is declared
`extern` in rdp_settings.h and defined outside src/, so the positions are a
parameter. -/
structure guac_rdp_arg_index where
  IDX_PORT : Nat
  IDX_WIDTH : Nat
  IDX_HEIGHT : Nat
  IDX_COLOR_DEPTH : Nat
  IDX_SECURITY : Nat

/-- Modelled from the spec: the readers of a value that is present, which §4.1
leaves open ("malformed/out-of-range required values fail the parse"); `none` is
a value the reader refuses. -/
structure guac_rdp_arg_readers where
  read_int : String → Option Int
  read_security : String → Option guac_rdp_security

/-- The value of an option: the default when the argument is missing or empty,
otherwise what the reader makes of it. -/
def arg_or_default {α : Type} (argv : List String) (i : Nat) (default : α)
    (read : String → Option α) : Option α :=
  if argv.getD i "" == "" then some default else read (argv.getD i "")

/-- Modelled from the spec: `guac_rdp_parse_args`, declared in rdp_settings.h with
its body not under src/, after `parse` of §4.1: "Missing optional values fall back
to documented defaults; malformed/out-of-range required values fail the parse — no
partial session is created.  Unspecified security mode defaults to "any
supported"", with the defaults of §8.  The result is the return value (zero on
success) and the settings object, which is left as it was on failure; only the
five fields §8 documents are written. -/
def guac_rdp_parse_args (idx : guac_rdp_arg_index) (rd : guac_rdp_arg_readers)
    (settings : guac_rdp_settings) (argv : List String) : Int × guac_rdp_settings :=
  match arg_or_default argv idx.IDX_PORT RDP_DEFAULT_PORT rd.read_int,
      arg_or_default argv idx.IDX_WIDTH RDP_DEFAULT_WIDTH rd.read_int,
      arg_or_default argv idx.IDX_HEIGHT RDP_DEFAULT_HEIGHT rd.read_int,
      arg_or_default argv idx.IDX_COLOR_DEPTH RDP_DEFAULT_DEPTH rd.read_int,
      arg_or_default argv idx.IDX_SECURITY guac_rdp_security.GUAC_SECURITY_ANY
        rd.read_security with
  | some port, some width, some height, some depth, some security =>
    (0, { settings with
            port := port, width := width, height := height, color_depth := depth,
            security_mode := security })
  | _, _, _, _, _ => (1, settings)

/-- An argument vector that specifies nothing: every argument is the empty
string. -/
def defaults_only (argv : List String) : Bool :=
  argv.all (fun a => a == "")

/-- A settings object before parsing: every pointer `NULL`, every number 0. -/
def blank_settings : guac_rdp_settings :=
  ⟨none, 0, none, none, none, 0, 0, 0, 0, 0, 0, 0, none, 0, 0, none, none,
    guac_rdp_security.GUAC_SECURITY_RDP, 0, 0, none, none, none, none⟩

/-- Positions of the five options, to run the parser on. -/
def demo_arg_index : guac_rdp_arg_index := ⟨1, 5, 6, 8, 9⟩

/-- Readers to run the parser on: decimal numbers, and no security name at all. -/
def demo_readers : guac_rdp_arg_readers := ⟨fun s => s.toInt?, fun _ => none⟩

/-- Whether the last two effects of the trace are an acknowledgement for the given
stream on the given socket and, right after it, a flush of that socket, and no
effect before them is an acknowledgement. -/
def one_ack_flushed (socket stream : Nat) (trace : List Effect) : Bool :=
  match trace.reverse with
  | Effect.guac_socket_flush flushed :: Effect.guac_protocol_send_ack s i _ _ :: before =>
    flushed == socket && s == socket && i == stream && before.all (fun e => !e.is_ack)
  | _ => false

/-! ## C strings and the validator -/

theorem char_toNat_eq_zero (c : Char) : c.toNat = 0 ↔ c = '\x00' := by
  constructor
  · intro h
    apply Char.ext
    apply UInt32.ext
    simpa [Char.toNat] using h
  · rintro rfl; rfl

theorem char_toNat_inj {a b : Char} (h : a.toNat = b.toNat) : a = b := by
  apply Char.ext
  apply UInt32.ext
  simpa [Char.toNat] using h

theorem cstr_nil : cstr [] = [] := rfl

theorem cstr_cons (c : Char) (s : List Char) :
    cstr (c :: s) = if c = '\x00' then [] else c :: cstr s := by
  by_cases h : c = '\x00'
  · simp [cstr, h]
  · have h1 : (c != '\x00') = true := by simp [h]
    simp [cstr, List.takeWhile_cons, h1, h]

/-- A list without a NUL character is its own C string. -/
theorem cstr_eq_self (s : List Char) (h : ∀ c ∈ s, c ≠ '\x00') : cstr s = s := by
  induction s with
  | nil => rfl
  | cons c s ih =>
    have hc : c ≠ '\x00' := h c (List.mem_cons_self c s)
    rw [cstr_cons, if_neg hc, ih (fun d hd => h d (List.mem_cons_of_mem c hd))]

/-- `strcmp` yields zero exactly when the two C strings are equal. -/
theorem strcmp_eq_zero_iff (s t : List Char) : strcmp s t = 0 ↔ cstr s = cstr t := by
  induction s generalizing t with
  | nil =>
    cases t with
    | nil => simp [strcmp]
    | cons b t =>
      simp only [strcmp, cstr_nil, cstr_cons]
      by_cases hb : b = '\x00'
      · simp [hb]
      · have : b.toNat ≠ 0 := fun h => hb ((char_toNat_eq_zero b).1 h)
        simp [hb]; omega
  | cons a s ih =>
    cases t with
    | nil =>
      simp only [strcmp, cstr_nil, cstr_cons]
      by_cases ha : a = '\x00'
      · simp [ha]
      · have : a.toNat ≠ 0 := fun h => ha ((char_toNat_eq_zero a).1 h)
        simp [ha]; omega
    | cons b t =>
      simp only [strcmp, cstr_cons]
      by_cases hab : a = b
      · subst hab
        by_cases ha : a = '\x00'
        · simp [ha]
        · simp [ha, ih]
      · have hn : a.toNat ≠ b.toNat := fun h => hab (char_toNat_inj h)
        have h1 : (a != b) = true := by simp [hab]
        simp only [h1, if_true]
        constructor
        · intro h; omega
        · intro h
          exfalso
          by_cases ha : a = '\x00'
          · by_cases hb : b = '\x00'
            · exact hab (ha.trans hb.symm)
            · simp [ha, hb] at h
          · by_cases hb : b = '\x00'
            · simp [ha, hb] at h
            · simp [ha, hb] at h
              exact hab h.1

/-- The loop accepts exactly the C strings without a slash and without a
backslash. -/
theorem valid_filename_loop_iff (s : List Char) :
    valid_filename_loop s = true ↔ ¬ ('/' ∈ cstr s ∨ '\\' ∈ cstr s) := by
  induction s with
  | nil => simp [valid_filename_loop, cstr_nil]
  | cons c s ih =>
    simp only [valid_filename_loop, cstr_cons]
    by_cases h0 : c = '\x00'
    · simp [h0]
    · by_cases h1 : c = '\\'
      · simp [h1]
      · by_cases h2 : c = '/'
        · simp [h2]
        · have e1 : ¬ ('/' = c) := fun h => h2 h.symm
          have e2 : ¬ ('\\' = c) := fun h => h1 h.symm
          simp [h0, h1, h2, e1, e2, ih]

/-- The validator accepts exactly the names that are neither "." nor ".." and
hold no separator. -/
theorem valid_filename_iff (filename : List Char) :
    __ssh_guac_valid_filename filename = true ↔
      ¬ (cstr filename = ['.'] ∨ cstr filename = ['.', '.'] ∨
          '/' ∈ cstr filename ∨ '\\' ∈ cstr filename) := by
  have c1 : cstr ['.'] = ['.'] := by decide
  have c2 : cstr ['.', '.'] = ['.', '.'] := by decide
  unfold __ssh_guac_valid_filename
  by_cases h1 : cstr filename = ['.']
  · have : strcmp filename ['.'] = 0 := (strcmp_eq_zero_iff _ _).2 (by rw [h1, c1])
    simp [this, h1]
  · have n1 : strcmp filename ['.'] ≠ 0 :=
      fun h => h1 (by rw [(strcmp_eq_zero_iff _ _).1 h, c1])
    by_cases h2 : cstr filename = ['.', '.']
    · have : strcmp filename ['.', '.'] = 0 := (strcmp_eq_zero_iff _ _).2 (by rw [h2, c2])
      simp [this, h2]
    · have n2 : strcmp filename ['.', '.'] ≠ 0 :=
        fun h => h2 (by rw [(strcmp_eq_zero_iff _ _).1 h, c2])
      simp only [beq_iff_eq, n1, n2, if_false, h1, h2, false_or]
      exact valid_filename_loop_iff filename

/-- C1: `__ssh_guac_valid_filename` is a total function and, for every filename, it
returns false when the name is "." or "..", or holds a '/' or a '\\', and true for
every other name: its result is the negation of "the name is "." or ".." or holds
a slash or a backslash".  The name is the C string at the pointer, which is the
whole list when the list holds no NUL (second part). -/
theorem valid_filename_spec :
    (∀ filename : List Char,
      __ssh_guac_valid_filename filename =
        !(decide (cstr filename = ['.']) || decide (cstr filename = ['.', '.']) ||
          decide ('/' ∈ cstr filename) || decide ('\\' ∈ cstr filename))) ∧
    (∀ filename : List Char, filename.all (fun c => c != '\x00') = true →
      cstr filename = filename) := by
  refine ⟨fun filename => ?_, fun filename h => ?_⟩
  · have h := valid_filename_iff filename
    cases hv : __ssh_guac_valid_filename filename
    · rw [hv] at h
      simp only [Bool.false_eq_true, false_iff, not_not] at h
      rcases h with h | h | h | h <;> simp [h]
    · rw [hv] at h
      have h2 := h.1 rfl
      simp only [not_or] at h2
      obtain ⟨a, b, c, d⟩ := h2
      simp [a, b, c, d]
  · apply cstr_eq_self
    intro c hc
    have := List.all_eq_true.1 h c hc
    simpa using this

/-- The validator at concrete names: "report.pdf" is accepted, "../evil" is not,
and a name without NUL is its own C string. -/
theorem valid_filename_spec_witness :
    __ssh_guac_valid_filename "report.pdf".toList = true ∧
    __ssh_guac_valid_filename "../evil".toList = false ∧
    cstr "report.pdf".toList = "report.pdf".toList :=
  ⟨by decide, by decide, valid_filename_spec.2 "report.pdf".toList (by decide)⟩

/-! ## The trace of each branch -/

theorem file_handler_trace_invalid {σ : Type} (be : Backend σ) (w : σ)
    (client : guac_client) (stream : guac_stream) (mimetype filename : List Char)
    (h : __ssh_guac_valid_filename filename = false) :
    (guac_sftp_file_handler be w client stream mimetype filename).trace =
      [Effect.guac_protocol_send_ack client.socket stream.index "SFTP: Illegal filename"
          guac_protocol_status.GUAC_PROTOCOL_STATUS_INVALID_PARAMETER,
        Effect.guac_socket_flush client.socket] := by
  simp [guac_sftp_file_handler, h]

theorem file_handler_trace_opened {σ : Type} (be : Backend σ) (w : σ)
    (client : guac_client) (stream : guac_stream) (mimetype filename : List Char)
    (h : __ssh_guac_valid_filename filename = true)
    (ho : (be.sftp_open w client.data.sftp_session filename
      (O_WRONLY ||| O_CREAT ||| O_TRUNC) (S_IRUSR ||| S_IWUSR)).1 ≠ none) :
    (guac_sftp_file_handler be w client stream mimetype filename).trace =
      [Effect.sftp_open client.data.sftp_session filename
          (O_WRONLY ||| O_CREAT ||| O_TRUNC) (S_IRUSR ||| S_IWUSR),
        Effect.guac_protocol_send_ack client.socket stream.index "SFTP: File opened"
          guac_protocol_status.GUAC_PROTOCOL_STATUS_SUCCESS,
        Effect.guac_socket_flush client.socket] := by
  simp [guac_sftp_file_handler, h, ho]

theorem file_handler_trace_failed {σ : Type} (be : Backend σ) (w : σ)
    (client : guac_client) (stream : guac_stream) (mimetype filename : List Char)
    (h : __ssh_guac_valid_filename filename = true)
    (ho : (be.sftp_open w client.data.sftp_session filename
      (O_WRONLY ||| O_CREAT ||| O_TRUNC) (S_IRUSR ||| S_IWUSR)).1 = none) :
    (guac_sftp_file_handler be w client stream mimetype filename).trace =
      [Effect.sftp_open client.data.sftp_session filename
          (O_WRONLY ||| O_CREAT ||| O_TRUNC) (S_IRUSR ||| S_IWUSR),
        Effect.guac_client_log_error
          ("Unable to open file: " ++
            be.ssh_get_error
              (be.sftp_open w client.data.sftp_session filename
                (O_WRONLY ||| O_CREAT ||| O_TRUNC) (S_IRUSR ||| S_IWUSR)).2
              client.data.session),
        Effect.guac_protocol_send_ack client.socket stream.index "SFTP: Open failed"
          guac_protocol_status.GUAC_PROTOCOL_STATUS_INTERNAL_ERROR,
        Effect.guac_socket_flush client.socket] := by
  simp [guac_sftp_file_handler, h, ho]

theorem blob_handler_trace_full {σ : Type} (be : Backend σ) (w : σ)
    (client : guac_client) (stream : guac_stream) (data : List Nat) (length : Int)
    (h : (be.sftp_write w stream.data data length).1 = length) :
    (guac_sftp_blob_handler be w client stream data length).trace =
      [Effect.sftp_write stream.data data length,
        Effect.guac_protocol_send_ack client.socket stream.index "SFTP: OK"
          guac_protocol_status.GUAC_PROTOCOL_STATUS_SUCCESS,
        Effect.guac_socket_flush client.socket] := by
  simp [guac_sftp_blob_handler, h]

theorem blob_handler_trace_short {σ : Type} (be : Backend σ) (w : σ)
    (client : guac_client) (stream : guac_stream) (data : List Nat) (length : Int)
    (h : (be.sftp_write w stream.data data length).1 ≠ length) :
    (guac_sftp_blob_handler be w client stream data length).trace =
      [Effect.sftp_write stream.data data length,
        Effect.guac_client_log_error
          ("Unable to write to file: " ++
            be.ssh_get_error (be.sftp_write w stream.data data length).2
              client.data.session),
        Effect.guac_protocol_send_ack client.socket stream.index "SFTP: Write failed"
          guac_protocol_status.GUAC_PROTOCOL_STATUS_INTERNAL_ERROR,
        Effect.guac_socket_flush client.socket] := by
  simp [guac_sftp_blob_handler, h]

theorem end_handler_trace_closed {σ : Type} (be : Backend σ) (w : σ)
    (client : guac_client) (stream : guac_stream)
    (h : (be.sftp_close w stream.data).1 = SSH_OK) :
    (guac_sftp_end_handler be w client stream).trace =
      [Effect.sftp_close stream.data,
        Effect.guac_protocol_send_ack client.socket stream.index "SFTP: OK"
          guac_protocol_status.GUAC_PROTOCOL_STATUS_SUCCESS,
        Effect.guac_socket_flush client.socket] := by
  simp [guac_sftp_end_handler, h]

theorem end_handler_trace_failed {σ : Type} (be : Backend σ) (w : σ)
    (client : guac_client) (stream : guac_stream)
    (h : (be.sftp_close w stream.data).1 ≠ SSH_OK) :
    (guac_sftp_end_handler be w client stream).trace =
      [Effect.sftp_close stream.data,
        Effect.guac_client_log_error "Unable to close file",
        Effect.guac_protocol_send_ack client.socket stream.index "SFTP: Close failed"
          guac_protocol_status.GUAC_PROTOCOL_STATUS_INTERNAL_ERROR,
        Effect.guac_socket_flush client.socket] := by
  simp [guac_sftp_end_handler, h]

/-! ## The open handler -/

/-- The flags of the open call are write-only, create and truncate, without
`O_EXCL`; the mode is read and write for the owner. -/
theorem open_flags :
    O_WRONLY ||| O_CREAT ||| O_TRUNC = 0o1101 ∧
    (O_WRONLY ||| O_CREAT ||| O_TRUNC) &&& O_WRONLY = O_WRONLY ∧
    (O_WRONLY ||| O_CREAT ||| O_TRUNC) &&& O_CREAT = O_CREAT ∧
    (O_WRONLY ||| O_CREAT ||| O_TRUNC) &&& O_TRUNC = O_TRUNC ∧
    (O_WRONLY ||| O_CREAT ||| O_TRUNC) &&& O_EXCL = 0 ∧
    S_IRUSR ||| S_IWUSR = 0o600 := by
  decide

/-- C2: for every filename that is "." or ".." or holds a '/' or a '\\', and every
mimetype, client, stream, backend and world, `guac_sftp_file_handler` sends the
acknowledgement INVALID_PARAMETER with the text "SFTP: Illegal filename", flushes,
and does nothing else: the trace holds no backend open call, the stream keeps its
data pointer (no file handle is stored) and the world of the backend is
untouched. -/
theorem file_handler_rejects_illegal {σ : Type} (be : Backend σ) (w : σ)
    (client : guac_client) (stream : guac_stream) (mimetype filename : List Char)
    (h : cstr filename = ['.'] ∨ cstr filename = ['.', '.'] ∨
          '/' ∈ cstr filename ∨ '\\' ∈ cstr filename) :
    (guac_sftp_file_handler be w client stream mimetype filename).trace =
        [Effect.guac_protocol_send_ack client.socket stream.index "SFTP: Illegal filename"
            guac_protocol_status.GUAC_PROTOCOL_STATUS_INVALID_PARAMETER,
          Effect.guac_socket_flush client.socket] ∧
      (guac_sftp_file_handler be w client stream mimetype filename).trace.filter
        Effect.is_sftp_open = [] ∧
      (guac_sftp_file_handler be w client stream mimetype filename).stream = stream ∧
      (guac_sftp_file_handler be w client stream mimetype filename).world = w := by
  have hv : __ssh_guac_valid_filename filename = false := by
    cases hb : __ssh_guac_valid_filename filename
    · rfl
    · exact absurd h ((valid_filename_iff filename).1 hb)
  simp [guac_sftp_file_handler, hv, Effect.is_sftp_open]

/-- The rejection of the upload of "../evil". -/
theorem file_handler_rejects_illegal_witness :
    ('/' ∈ cstr "../evil".toList) ∧
    (guac_sftp_file_handler mem_backend ⟨[1, 2], 2⟩ demo_client demo_stream
        "text/plain".toList "../evil".toList).trace =
      [Effect.guac_protocol_send_ack 7 3 "SFTP: Illegal filename"
          guac_protocol_status.GUAC_PROTOCOL_STATUS_INVALID_PARAMETER,
        Effect.guac_socket_flush 7] ∧
    (guac_sftp_file_handler mem_backend ⟨[1, 2], 2⟩ demo_client demo_stream
        "text/plain".toList "../evil".toList).world = ⟨[1, 2], 2⟩ :=
  have h := file_handler_rejects_illegal mem_backend ⟨[1, 2], 2⟩ demo_client demo_stream
    "text/plain".toList "../evil".toList (Or.inr (Or.inr (Or.inl (by decide))))
  ⟨by decide, h.1, h.2.2.2⟩

/-- C3: for every filename the validator accepts, `guac_sftp_file_handler` makes
exactly one backend open call, of that filename with O_WRONLY | O_CREAT | O_TRUNC
and mode S_IRUSR | S_IWUSR, before anything else.  When the call yields a handle
the rest of the trace is the acknowledgement SUCCESS "SFTP: File opened" and a
flush; when it yields `NULL` the rest is the error log with the diagnostic of the
backend, the acknowledgement INTERNAL_ERROR "SFTP: Open failed" and a flush.  In
both cases the result of the call is stored in the stream. -/
theorem file_handler_opens_valid {σ : Type} (be : Backend σ) (w : σ)
    (client : guac_client) (stream : guac_stream) (mimetype filename : List Char)
    (h : __ssh_guac_valid_filename filename = true) :
    (guac_sftp_file_handler be w client stream mimetype filename).trace.filter
        Effect.is_sftp_open =
      [Effect.sftp_open client.data.sftp_session filename
        (O_WRONLY ||| O_CREAT ||| O_TRUNC) (S_IRUSR ||| S_IWUSR)] ∧
    ((be.sftp_open w client.data.sftp_session filename
          (O_WRONLY ||| O_CREAT ||| O_TRUNC) (S_IRUSR ||| S_IWUSR)).1 ≠ none →
      (guac_sftp_file_handler be w client stream mimetype filename).trace =
        [Effect.sftp_open client.data.sftp_session filename
            (O_WRONLY ||| O_CREAT ||| O_TRUNC) (S_IRUSR ||| S_IWUSR),
          Effect.guac_protocol_send_ack client.socket stream.index "SFTP: File opened"
            guac_protocol_status.GUAC_PROTOCOL_STATUS_SUCCESS,
          Effect.guac_socket_flush client.socket]) ∧
    ((be.sftp_open w client.data.sftp_session filename
          (O_WRONLY ||| O_CREAT ||| O_TRUNC) (S_IRUSR ||| S_IWUSR)).1 = none →
      (guac_sftp_file_handler be w client stream mimetype filename).trace =
        [Effect.sftp_open client.data.sftp_session filename
            (O_WRONLY ||| O_CREAT ||| O_TRUNC) (S_IRUSR ||| S_IWUSR),
          Effect.guac_client_log_error
            ("Unable to open file: " ++
              be.ssh_get_error
                (be.sftp_open w client.data.sftp_session filename
                  (O_WRONLY ||| O_CREAT ||| O_TRUNC) (S_IRUSR ||| S_IWUSR)).2
                client.data.session),
          Effect.guac_protocol_send_ack client.socket stream.index "SFTP: Open failed"
            guac_protocol_status.GUAC_PROTOCOL_STATUS_INTERNAL_ERROR,
          Effect.guac_socket_flush client.socket]) ∧
    (guac_sftp_file_handler be w client stream mimetype filename).stream.data =
      (be.sftp_open w client.data.sftp_session filename
        (O_WRONLY ||| O_CREAT ||| O_TRUNC) (S_IRUSR ||| S_IWUSR)).1 ∧
    (guac_sftp_file_handler be w client stream mimetype filename).world =
      (be.sftp_open w client.data.sftp_session filename
        (O_WRONLY ||| O_CREAT ||| O_TRUNC) (S_IRUSR ||| S_IWUSR)).2 := by
  cases ho : (be.sftp_open w client.data.sftp_session filename
      (O_WRONLY ||| O_CREAT ||| O_TRUNC) (S_IRUSR ||| S_IWUSR)).1 with
  | none => simp [guac_sftp_file_handler, h, ho, Effect.is_sftp_open]
  | some file => simp [guac_sftp_file_handler, h, ho, Effect.is_sftp_open]

/-- The open of "report.pdf", on a backend that opens the file and on one that
does not. -/
theorem file_handler_opens_valid_witness :
    __ssh_guac_valid_filename "report.pdf".toList = true ∧
    (guac_sftp_file_handler mem_backend ⟨[1, 2], 2⟩ demo_client demo_stream
        "application/pdf".toList "report.pdf".toList).trace =
      [Effect.sftp_open 13 "report.pdf".toList 0o1101 0o600,
        Effect.guac_protocol_send_ack 7 3 "SFTP: File opened"
          guac_protocol_status.GUAC_PROTOCOL_STATUS_SUCCESS,
        Effect.guac_socket_flush 7] ∧
    (guac_sftp_file_handler failing_backend () demo_client demo_stream
        "application/pdf".toList "report.pdf".toList).trace =
      [Effect.sftp_open 13 "report.pdf".toList 0o1101 0o600,
        Effect.guac_client_log_error "Unable to open file: Permission denied",
        Effect.guac_protocol_send_ack 7 3 "SFTP: Open failed"
          guac_protocol_status.GUAC_PROTOCOL_STATUS_INTERNAL_ERROR,
        Effect.guac_socket_flush 7] :=
  ⟨by decide,
    (file_handler_opens_valid mem_backend ⟨[1, 2], 2⟩ demo_client demo_stream
      "application/pdf".toList "report.pdf".toList (by decide)).2.1 (by decide),
    (file_handler_opens_valid failing_backend () demo_client demo_stream
      "application/pdf".toList "report.pdf".toList (by decide)).2.2.1 rfl⟩

/-- C10: the empty filename is accepted.  `__ssh_guac_valid_filename` returns true
on the empty string, and `guac_sftp_file_handler` called with it first makes a
backend open call with the empty name and sends no acknowledgement with the status
INVALID_PARAMETER, whatever the backend answers. -/
theorem empty_filename_accepted {σ : Type} (be : Backend σ) (w : σ)
    (client : guac_client) (stream : guac_stream) (mimetype : List Char) :
    __ssh_guac_valid_filename [] = true ∧
    (guac_sftp_file_handler be w client stream mimetype []).trace.head? =
      some (Effect.sftp_open client.data.sftp_session []
        (O_WRONLY ||| O_CREAT ||| O_TRUNC) (S_IRUSR ||| S_IWUSR)) ∧
    (∀ (socket index : Nat) (message : String),
      Effect.guac_protocol_send_ack socket index message
          guac_protocol_status.GUAC_PROTOCOL_STATUS_INVALID_PARAMETER ∉
        (guac_sftp_file_handler be w client stream mimetype []).trace) := by
  have hv : __ssh_guac_valid_filename [] = true := by decide
  refine ⟨hv, ?_, ?_⟩
  · cases ho : (be.sftp_open w client.data.sftp_session []
        (O_WRONLY ||| O_CREAT ||| O_TRUNC) (S_IRUSR ||| S_IWUSR)).1 with
    | none => simp [guac_sftp_file_handler, hv, ho]
    | some file => simp [guac_sftp_file_handler, hv, ho]
  · intro socket index message
    cases ho : (be.sftp_open w client.data.sftp_session []
        (O_WRONLY ||| O_CREAT ||| O_TRUNC) (S_IRUSR ||| S_IWUSR)).1 with
    | none => simp [guac_sftp_file_handler, hv, ho]
    | some file => simp [guac_sftp_file_handler, hv, ho]

/-! ## The chunk handler -/

/-- C4: for every chunk `(data, length)`, stream, client, backend and world,
`guac_sftp_blob_handler` makes exactly one backend write call, of the whole chunk
on the file of the stream, before anything else.  When the call reports `length`
the rest of the trace is the acknowledgement SUCCESS "SFTP: OK" and a flush; when
it reports anything else (a short or failed write) the rest is the error log with
the diagnostic of the backend, the acknowledgement INTERNAL_ERROR "SFTP: Write
failed" and a flush.  So the SUCCESS acknowledgement is sent if and only if the
write reports exactly `length`.  In both cases the handler makes no close call and
leaves the stream, with its file, as it was. -/
theorem blob_handler_spec {σ : Type} (be : Backend σ) (w : σ) (client : guac_client)
    (stream : guac_stream) (data : List Nat) (length : Int) :
    (guac_sftp_blob_handler be w client stream data length).trace.filter
        Effect.is_sftp_write = [Effect.sftp_write stream.data data length] ∧
    ((be.sftp_write w stream.data data length).1 = length →
      (guac_sftp_blob_handler be w client stream data length).trace =
        [Effect.sftp_write stream.data data length,
          Effect.guac_protocol_send_ack client.socket stream.index "SFTP: OK"
            guac_protocol_status.GUAC_PROTOCOL_STATUS_SUCCESS,
          Effect.guac_socket_flush client.socket]) ∧
    ((be.sftp_write w stream.data data length).1 ≠ length →
      (guac_sftp_blob_handler be w client stream data length).trace =
        [Effect.sftp_write stream.data data length,
          Effect.guac_client_log_error
            ("Unable to write to file: " ++
              be.ssh_get_error (be.sftp_write w stream.data data length).2
                client.data.session),
          Effect.guac_protocol_send_ack client.socket stream.index "SFTP: Write failed"
            guac_protocol_status.GUAC_PROTOCOL_STATUS_INTERNAL_ERROR,
          Effect.guac_socket_flush client.socket]) ∧
    (Effect.guac_protocol_send_ack client.socket stream.index "SFTP: OK"
          guac_protocol_status.GUAC_PROTOCOL_STATUS_SUCCESS ∈
        (guac_sftp_blob_handler be w client stream data length).trace ↔
      (be.sftp_write w stream.data data length).1 = length) ∧
    (guac_sftp_blob_handler be w client stream data length).trace.filter
        Effect.is_sftp_close = [] ∧
    (guac_sftp_blob_handler be w client stream data length).stream = stream ∧
    (guac_sftp_blob_handler be w client stream data length).world =
      (be.sftp_write w stream.data data length).2 := by
  by_cases hw : (be.sftp_write w stream.data data length).1 = length
  · simp [guac_sftp_blob_handler, hw, Effect.is_sftp_write, Effect.is_sftp_close]
  · simp [guac_sftp_blob_handler, hw, Effect.is_sftp_write, Effect.is_sftp_close]

/-- A chunk of three bytes, on a backend that writes it in full and on one whose
write fails. -/
theorem blob_handler_spec_witness :
    (mem_backend.sftp_write ⟨[], 0⟩ (some 1) [10, 20, 30] 3).1 = 3 ∧
    (guac_sftp_blob_handler mem_backend ⟨[], 0⟩ demo_client open_stream
        [10, 20, 30] 3).trace =
      [Effect.sftp_write (some 1) [10, 20, 30] 3,
        Effect.guac_protocol_send_ack 7 3 "SFTP: OK"
          guac_protocol_status.GUAC_PROTOCOL_STATUS_SUCCESS,
        Effect.guac_socket_flush 7] ∧
    (failing_backend.sftp_write () (some 1) [10, 20, 30] 3).1 ≠ 3 ∧
    (guac_sftp_blob_handler failing_backend () demo_client open_stream
        [10, 20, 30] 3).trace =
      [Effect.sftp_write (some 1) [10, 20, 30] 3,
        Effect.guac_client_log_error "Unable to write to file: Permission denied",
        Effect.guac_protocol_send_ack 7 3 "SFTP: Write failed"
          guac_protocol_status.GUAC_PROTOCOL_STATUS_INTERNAL_ERROR,
        Effect.guac_socket_flush 7] :=
  ⟨by decide,
    (blob_handler_spec mem_backend ⟨[], 0⟩ demo_client open_stream
      [10, 20, 30] 3).2.1 (by decide),
    by decide,
    (blob_handler_spec failing_backend () demo_client open_stream
      [10, 20, 30] 3).2.2.1 (by decide)⟩

/-! ## The end handler -/

/-- C6: for every stream, client, backend and world, `guac_sftp_end_handler` makes
exactly one backend close call, on the file of the stream, before anything else.
When the call yields `SSH_OK` the rest of the trace is the acknowledgement SUCCESS
"SFTP: OK" and a flush; otherwise it is the error log, the acknowledgement
INTERNAL_ERROR "SFTP: Close failed" and a flush.  In both cases the trace holds
exactly one acknowledgement and the handler returns (with 0). -/
theorem end_handler_spec {σ : Type} (be : Backend σ) (w : σ) (client : guac_client)
    (stream : guac_stream) :
    (guac_sftp_end_handler be w client stream).trace.filter Effect.is_sftp_close =
      [Effect.sftp_close stream.data] ∧
    ((be.sftp_close w stream.data).1 = SSH_OK →
      (guac_sftp_end_handler be w client stream).trace =
        [Effect.sftp_close stream.data,
          Effect.guac_protocol_send_ack client.socket stream.index "SFTP: OK"
            guac_protocol_status.GUAC_PROTOCOL_STATUS_SUCCESS,
          Effect.guac_socket_flush client.socket]) ∧
    ((be.sftp_close w stream.data).1 ≠ SSH_OK →
      (guac_sftp_end_handler be w client stream).trace =
        [Effect.sftp_close stream.data,
          Effect.guac_client_log_error "Unable to close file",
          Effect.guac_protocol_send_ack client.socket stream.index "SFTP: Close failed"
            guac_protocol_status.GUAC_PROTOCOL_STATUS_INTERNAL_ERROR,
          Effect.guac_socket_flush client.socket]) ∧
    ((guac_sftp_end_handler be w client stream).trace.filter Effect.is_ack).length = 1 ∧
    (guac_sftp_end_handler be w client stream).ret = 0 := by
  by_cases hc : (be.sftp_close w stream.data).1 = SSH_OK
  · simp [guac_sftp_end_handler, hc, Effect.is_sftp_close, Effect.is_ack]
  · simp [guac_sftp_end_handler, hc, Effect.is_sftp_close, Effect.is_ack]

/-- The end of a stream, on a backend that closes the file and on one whose close
fails. -/
theorem end_handler_spec_witness :
    (mem_backend.sftp_close ⟨[1], 1⟩ (some 1)).1 = SSH_OK ∧
    (guac_sftp_end_handler mem_backend ⟨[1], 1⟩ demo_client open_stream).trace =
      [Effect.sftp_close (some 1),
        Effect.guac_protocol_send_ack 7 3 "SFTP: OK"
          guac_protocol_status.GUAC_PROTOCOL_STATUS_SUCCESS,
        Effect.guac_socket_flush 7] ∧
    (failing_backend.sftp_close () (some 1)).1 ≠ SSH_OK ∧
    (guac_sftp_end_handler failing_backend () demo_client open_stream).trace =
      [Effect.sftp_close (some 1),
        Effect.guac_client_log_error "Unable to close file",
        Effect.guac_protocol_send_ack 7 3 "SFTP: Close failed"
          guac_protocol_status.GUAC_PROTOCOL_STATUS_INTERNAL_ERROR,
        Effect.guac_socket_flush 7] :=
  ⟨by decide,
    (end_handler_spec mem_backend ⟨[1], 1⟩ demo_client open_stream).2.1 (by decide),
    by decide,
    (end_handler_spec failing_backend () demo_client open_stream).2.2.1 (by decide)⟩

/-! ## Acknowledgements and return values -/

/-- What `one_ack_flushed` decides: the trace is some effects that are not
acknowledgements, then the acknowledgement for the stream, then the flush. -/
theorem one_ack_flushed_iff (socket stream : Nat) (trace : List Effect) :
    one_ack_flushed socket stream trace = true ↔
      ∃ (before : List Effect) (message : String) (status : guac_protocol_status),
        trace = before ++ [Effect.guac_protocol_send_ack socket stream message status,
          Effect.guac_socket_flush socket] ∧
        ∀ e ∈ before, e.is_ack = false := by
  constructor
  · intro h
    unfold one_ack_flushed at h
    split at h
    · rename_i flushed s i m st before hrev
      simp only [Bool.and_eq_true, beq_iff_eq, List.all_eq_true, Bool.not_eq_true'] at h
      obtain ⟨⟨⟨h1, h2⟩, h3⟩, h4⟩ := h
      refine ⟨before.reverse, m, st, ?_, ?_⟩
      · have hr := congrArg List.reverse hrev
        rw [List.reverse_reverse] at hr
        rw [hr, h1, h2, h3]
        simp
      · intro e he
        exact h4 e (List.mem_reverse.1 he)
    · exact absurd h (by simp)
  · rintro ⟨before, m, st, rfl, hb⟩
    simpa [one_ack_flushed] using hb

/-- C7: in the trace of every call of `guac_sftp_file_handler`,
`guac_sftp_blob_handler` and `guac_sftp_end_handler`, on every branch, there is
exactly one acknowledgement, it is for the handled stream on the socket of the
client, and the effect right after it is the flush of that socket, which ends the
trace. -/
theorem handlers_ack_then_flush {σ : Type} (be : Backend σ) (w : σ)
    (client : guac_client) (stream : guac_stream) :
    (∀ mimetype filename : List Char,
      one_ack_flushed client.socket stream.index
        (guac_sftp_file_handler be w client stream mimetype filename).trace = true) ∧
    (∀ (data : List Nat) (length : Int),
      one_ack_flushed client.socket stream.index
        (guac_sftp_blob_handler be w client stream data length).trace = true) ∧
    one_ack_flushed client.socket stream.index
      (guac_sftp_end_handler be w client stream).trace = true := by
  refine ⟨fun mimetype filename => ?_, fun data length => ?_, ?_⟩
  · cases hv : __ssh_guac_valid_filename filename
    · rw [file_handler_trace_invalid be w client stream mimetype filename hv]
      simp [one_ack_flushed, Effect.is_ack]
    · cases ho : (be.sftp_open w client.data.sftp_session filename
          (O_WRONLY ||| O_CREAT ||| O_TRUNC) (S_IRUSR ||| S_IWUSR)).1 with
      | none =>
        rw [file_handler_trace_failed be w client stream mimetype filename hv ho]
        simp [one_ack_flushed, Effect.is_ack]
      | some file =>
        rw [file_handler_trace_opened be w client stream mimetype filename hv
          (by rw [ho]; exact Option.some_ne_none file)]
        simp [one_ack_flushed, Effect.is_ack]
  · by_cases hw : (be.sftp_write w stream.data data length).1 = length
    · rw [blob_handler_trace_full be w client stream data length hw]
      simp [one_ack_flushed, Effect.is_ack]
    · rw [blob_handler_trace_short be w client stream data length hw]
      simp [one_ack_flushed, Effect.is_ack]
  · by_cases hc : (be.sftp_close w stream.data).1 = SSH_OK
    · rw [end_handler_trace_closed be w client stream hc]
      simp [one_ack_flushed, Effect.is_ack]
    · rw [end_handler_trace_failed be w client stream hc]
      simp [one_ack_flushed, Effect.is_ack]

/-- C8: no validation failure and no backend failure is fatal.  For every input
and every answer of the backend, each of `guac_sftp_file_handler`,
`guac_sftp_blob_handler` and `guac_sftp_end_handler` returns 0, and each failure
is reported through the one acknowledgement of the call, which then is negative:
an illegal filename gives INVALID_PARAMETER "SFTP: Illegal filename", a failed
open INTERNAL_ERROR "SFTP: Open failed", a short or failed write INTERNAL_ERROR
"SFTP: Write failed" and a failed close INTERNAL_ERROR "SFTP: Close failed"; the
acknowledgement has the status SUCCESS exactly when nothing failed. -/
theorem handlers_return_zero {σ : Type} (be : Backend σ) (w : σ)
    (client : guac_client) (stream : guac_stream) :
    (∀ mimetype filename : List Char,
      (guac_sftp_file_handler be w client stream mimetype filename).ret = 0) ∧
    (∀ (data : List Nat) (length : Int),
      (guac_sftp_blob_handler be w client stream data length).ret = 0) ∧
    (guac_sftp_end_handler be w client stream).ret = 0 ∧
    (∀ mimetype filename : List Char, __ssh_guac_valid_filename filename = false →
      (guac_sftp_file_handler be w client stream mimetype filename).trace.filter
          Effect.is_ack =
        [Effect.guac_protocol_send_ack client.socket stream.index
          "SFTP: Illegal filename"
          guac_protocol_status.GUAC_PROTOCOL_STATUS_INVALID_PARAMETER]) ∧
    (∀ mimetype filename : List Char, __ssh_guac_valid_filename filename = true →
      (be.sftp_open w client.data.sftp_session filename
          (O_WRONLY ||| O_CREAT ||| O_TRUNC) (S_IRUSR ||| S_IWUSR)).1 = none →
      (guac_sftp_file_handler be w client stream mimetype filename).trace.filter
          Effect.is_ack =
        [Effect.guac_protocol_send_ack client.socket stream.index "SFTP: Open failed"
          guac_protocol_status.GUAC_PROTOCOL_STATUS_INTERNAL_ERROR]) ∧
    (∀ (data : List Nat) (length : Int),
      (be.sftp_write w stream.data data length).1 ≠ length →
      (guac_sftp_blob_handler be w client stream data length).trace.filter
          Effect.is_ack =
        [Effect.guac_protocol_send_ack client.socket stream.index "SFTP: Write failed"
          guac_protocol_status.GUAC_PROTOCOL_STATUS_INTERNAL_ERROR]) ∧
    ((be.sftp_close w stream.data).1 ≠ SSH_OK →
      (guac_sftp_end_handler be w client stream).trace.filter Effect.is_ack =
        [Effect.guac_protocol_send_ack client.socket stream.index "SFTP: Close failed"
          guac_protocol_status.GUAC_PROTOCOL_STATUS_INTERNAL_ERROR]) ∧
    (∀ mimetype filename : List Char,
      (Effect.guac_protocol_send_ack client.socket stream.index "SFTP: File opened"
            guac_protocol_status.GUAC_PROTOCOL_STATUS_SUCCESS ∈
          (guac_sftp_file_handler be w client stream mimetype filename).trace ↔
        __ssh_guac_valid_filename filename = true ∧
          (be.sftp_open w client.data.sftp_session filename
            (O_WRONLY ||| O_CREAT ||| O_TRUNC) (S_IRUSR ||| S_IWUSR)).1 ≠ none) ∧
      ((guac_sftp_file_handler be w client stream mimetype filename).trace.filter
        Effect.is_ack).length = 1) ∧
    (∀ (data : List Nat) (length : Int),
      (Effect.guac_protocol_send_ack client.socket stream.index "SFTP: OK"
            guac_protocol_status.GUAC_PROTOCOL_STATUS_SUCCESS ∈
          (guac_sftp_blob_handler be w client stream data length).trace ↔
        (be.sftp_write w stream.data data length).1 = length) ∧
      ((guac_sftp_blob_handler be w client stream data length).trace.filter
        Effect.is_ack).length = 1) ∧
    ((Effect.guac_protocol_send_ack client.socket stream.index "SFTP: OK"
          guac_protocol_status.GUAC_PROTOCOL_STATUS_SUCCESS ∈
        (guac_sftp_end_handler be w client stream).trace ↔
      (be.sftp_close w stream.data).1 = SSH_OK) ∧
      ((guac_sftp_end_handler be w client stream).trace.filter
        Effect.is_ack).length = 1) := by
  refine ⟨fun mimetype filename => ?_, fun data length => ?_, ?_,
    fun mimetype filename hv => ?_, fun mimetype filename hv ho => ?_,
    fun data length hw => ?_, fun hc => ?_, fun mimetype filename => ?_,
    fun data length => ?_, ?_⟩
  · unfold guac_sftp_file_handler
    simp only []
    split
    · rfl
    · split <;> rfl
  · unfold guac_sftp_blob_handler
    simp only []
    split <;> rfl
  · unfold guac_sftp_end_handler
    simp only []
    split <;> rfl
  · rw [file_handler_trace_invalid be w client stream mimetype filename hv]
    simp [Effect.is_ack]
  · rw [file_handler_trace_failed be w client stream mimetype filename hv ho]
    simp [Effect.is_ack]
  · rw [blob_handler_trace_short be w client stream data length hw]
    simp [Effect.is_ack]
  · rw [end_handler_trace_failed be w client stream hc]
    simp [Effect.is_ack]
  · cases hv : __ssh_guac_valid_filename filename
    · rw [file_handler_trace_invalid be w client stream mimetype filename hv]
      simp [Effect.is_ack]
    · cases ho : (be.sftp_open w client.data.sftp_session filename
          (O_WRONLY ||| O_CREAT ||| O_TRUNC) (S_IRUSR ||| S_IWUSR)).1 with
      | none =>
        rw [file_handler_trace_failed be w client stream mimetype filename hv ho]
        simp [Effect.is_ack]
      | some file =>
        rw [file_handler_trace_opened be w client stream mimetype filename hv
          (by rw [ho]; exact Option.some_ne_none file)]
        simp [Effect.is_ack]
  · by_cases hw : (be.sftp_write w stream.data data length).1 = length
    · rw [blob_handler_trace_full be w client stream data length hw]
      simp [Effect.is_ack, hw]
    · rw [blob_handler_trace_short be w client stream data length hw]
      simp [Effect.is_ack, hw]
  · by_cases hc : (be.sftp_close w stream.data).1 = SSH_OK
    · rw [end_handler_trace_closed be w client stream hc]
      simp [Effect.is_ack, hc]
    · rw [end_handler_trace_failed be w client stream hc]
      simp [Effect.is_ack, hc]

/-- The four failures on concrete calls: the upload of "../evil", and the open of
"report.pdf", a chunk of three bytes and the end of the stream on a backend whose
calls all fail.  Each call returns 0 and its only acknowledgement is negative. -/
theorem handlers_return_zero_witness :
    __ssh_guac_valid_filename "../evil".toList = false ∧
    (guac_sftp_file_handler failing_backend () demo_client demo_stream
        "text/plain".toList "../evil".toList).ret = 0 ∧
    (guac_sftp_file_handler failing_backend () demo_client demo_stream
        "text/plain".toList "../evil".toList).trace.filter Effect.is_ack =
      [Effect.guac_protocol_send_ack 7 3 "SFTP: Illegal filename"
        guac_protocol_status.GUAC_PROTOCOL_STATUS_INVALID_PARAMETER] ∧
    (guac_sftp_file_handler failing_backend () demo_client demo_stream
        "application/pdf".toList "report.pdf".toList).ret = 0 ∧
    (guac_sftp_file_handler failing_backend () demo_client demo_stream
        "application/pdf".toList "report.pdf".toList).trace.filter Effect.is_ack =
      [Effect.guac_protocol_send_ack 7 3 "SFTP: Open failed"
        guac_protocol_status.GUAC_PROTOCOL_STATUS_INTERNAL_ERROR] ∧
    (failing_backend.sftp_write () (some 1) [10, 20, 30] 3).1 ≠ 3 ∧
    (guac_sftp_blob_handler failing_backend () demo_client open_stream
        [10, 20, 30] 3).ret = 0 ∧
    (guac_sftp_blob_handler failing_backend () demo_client open_stream
        [10, 20, 30] 3).trace.filter Effect.is_ack =
      [Effect.guac_protocol_send_ack 7 3 "SFTP: Write failed"
        guac_protocol_status.GUAC_PROTOCOL_STATUS_INTERNAL_ERROR] ∧
    (failing_backend.sftp_close () (some 1)).1 ≠ SSH_OK ∧
    (guac_sftp_end_handler failing_backend () demo_client open_stream).ret = 0 ∧
    (guac_sftp_end_handler failing_backend () demo_client open_stream).trace.filter
        Effect.is_ack =
      [Effect.guac_protocol_send_ack 7 3 "SFTP: Close failed"
        guac_protocol_status.GUAC_PROTOCOL_STATUS_INTERNAL_ERROR] :=
  have h := handlers_return_zero failing_backend () demo_client demo_stream
  have k := handlers_return_zero failing_backend () demo_client open_stream
  ⟨by decide,
    h.1 "text/plain".toList "../evil".toList,
    h.2.2.2.1 "text/plain".toList "../evil".toList (by decide),
    h.1 "application/pdf".toList "report.pdf".toList,
    h.2.2.2.2.1 "application/pdf".toList "report.pdf".toList (by decide) rfl,
    by decide,
    k.2.1 [10, 20, 30] 3,
    k.2.2.2.2.2.1 [10, 20, 30] 3 (by decide),
    by decide,
    k.2.2.1,
    k.2.2.2.2.2.2.1 (by decide)⟩

/-! ## Chunk sequences -/

/-- A write past the end of the file fills the gap with zero bytes, and a write
inside the file replaces the bytes it covers. -/
theorem write_at_examples :
    write_at [] 1 [7] = [0, 7] ∧ write_at [1, 2, 3, 4] 1 [8, 9] = [1, 8, 9, 4] := by
  decide

theorem getD_of_defaults_only (argv : List String) (h : defaults_only argv = true)
    (i : Nat) : argv.getD i "" = "" := by
  induction argv generalizing i with
  | nil => rfl
  | cons a rest ih =>
    simp only [defaults_only, List.all_cons, Bool.and_eq_true, beq_iff_eq] at h
    cases i with
    | zero => simpa using h.1
    | succ j =>
      have := ih (by simpa [defaults_only] using h.2) j
      simpa using this

theorem arg_or_default_of_defaults_only {α : Type} (argv : List String)
    (h : defaults_only argv = true) (i : Nat) (default : α) (read : String → Option α) :
    arg_or_default argv i default read = some default := by
  unfold arg_or_default
  rw [getD_of_defaults_only argv h i]
  rfl

/-- C9: parsing an argument list that specifies nothing succeeds and yields the
settings with port = 3389, width = 1024, height = 768, colour depth = 16 and
security_mode = GUAC_SECURITY_ANY, which are the values of RDP_DEFAULT_PORT,
RDP_DEFAULT_WIDTH, RDP_DEFAULT_HEIGHT and RDP_DEFAULT_DEPTH; and the security_mode
of any settings is one of GUAC_SECURITY_RDP, GUAC_SECURITY_TLS, GUAC_SECURITY_NLA
and GUAC_SECURITY_ANY. -/
theorem parse_args_defaults (idx : guac_rdp_arg_index) (rd : guac_rdp_arg_readers)
    (settings : guac_rdp_settings) (argv : List String)
    (h : defaults_only argv = true) :
    (guac_rdp_parse_args idx rd settings argv).1 = 0 ∧
    (guac_rdp_parse_args idx rd settings argv).2.port = 3389 ∧
    (guac_rdp_parse_args idx rd settings argv).2.width = 1024 ∧
    (guac_rdp_parse_args idx rd settings argv).2.height = 768 ∧
    (guac_rdp_parse_args idx rd settings argv).2.color_depth = 16 ∧
    (guac_rdp_parse_args idx rd settings argv).2.security_mode
      = guac_rdp_security.GUAC_SECURITY_ANY ∧
    (RDP_DEFAULT_PORT = 3389 ∧ RDP_DEFAULT_WIDTH = 1024 ∧ RDP_DEFAULT_HEIGHT = 768 ∧
      RDP_DEFAULT_DEPTH = 16) ∧
    (∀ s : guac_rdp_settings,
      s.security_mode = guac_rdp_security.GUAC_SECURITY_RDP ∨
      s.security_mode = guac_rdp_security.GUAC_SECURITY_TLS ∨
      s.security_mode = guac_rdp_security.GUAC_SECURITY_NLA ∨
      s.security_mode = guac_rdp_security.GUAC_SECURITY_ANY) := by
  have hp : guac_rdp_parse_args idx rd settings argv =
      (0, { settings with
              port := RDP_DEFAULT_PORT, width := RDP_DEFAULT_WIDTH,
              height := RDP_DEFAULT_HEIGHT, color_depth := RDP_DEFAULT_DEPTH,
              security_mode := guac_rdp_security.GUAC_SECURITY_ANY }) := by
    simp [guac_rdp_parse_args, arg_or_default_of_defaults_only argv h]
  rw [hp]
  refine ⟨rfl, rfl, rfl, rfl, rfl, rfl, ⟨rfl, rfl, rfl, rfl⟩, fun s => ?_⟩
  cases s.security_mode <;> simp

/-- The parse of an argument vector of ten empty strings. -/
theorem parse_args_defaults_witness :
    defaults_only (List.replicate 10 "") = true ∧
    (guac_rdp_parse_args demo_arg_index demo_readers blank_settings
      (List.replicate 10 "")).1 = 0 ∧
    (guac_rdp_parse_args demo_arg_index demo_readers blank_settings
      (List.replicate 10 "")).2.port = 3389 ∧
    (guac_rdp_parse_args demo_arg_index demo_readers blank_settings
      (List.replicate 10 "")).2.security_mode = guac_rdp_security.GUAC_SECURITY_ANY :=
  have h := parse_args_defaults demo_arg_index demo_readers blank_settings
    (List.replicate 10 "") (by decide)
  ⟨by decide, h.1, h.2.1, h.2.2.2.2.2.1⟩

/-! ## A whole upload -/

/-- The upload of "report.pdf" in two chunks on `mem_backend`: the open, the two
chunks and the end are acknowledged with SUCCESS, and the file holds the five
bytes at the end. -/
theorem upload_scenario :
    (guac_sftp_file_handler mem_backend ⟨[9], 1⟩ demo_client demo_stream
        "application/pdf".toList "report.pdf".toList).stream = open_stream ∧
    (upload_chunks mem_backend demo_client ⟨[], 0⟩ open_stream
        [[1, 2, 3], [4, 5]]).world = ⟨[1, 2, 3, 4, 5], 5⟩ ∧
    (upload_chunks mem_backend demo_client ⟨[], 0⟩ open_stream
        [[1, 2, 3], [4, 5]]).trace =
      [Effect.sftp_write (some 1) [1, 2, 3] 3,
        Effect.guac_protocol_send_ack 7 3 "SFTP: OK"
          guac_protocol_status.GUAC_PROTOCOL_STATUS_SUCCESS,
        Effect.guac_socket_flush 7,
        Effect.sftp_write (some 1) [4, 5] 2,
        Effect.guac_protocol_send_ack 7 3 "SFTP: OK"
          guac_protocol_status.GUAC_PROTOCOL_STATUS_SUCCESS,
        Effect.guac_socket_flush 7] ∧
    (guac_sftp_end_handler mem_backend ⟨[1, 2, 3, 4, 5], 5⟩ demo_client
        open_stream).trace =
      [Effect.sftp_close (some 1),
        Effect.guac_protocol_send_ack 7 3 "SFTP: OK"
          guac_protocol_status.GUAC_PROTOCOL_STATUS_SUCCESS,
        Effect.guac_socket_flush 7] := by
  refine ⟨by decide, by decide, by decide, by decide⟩

end Guac
